import Mathlib

/-!
Verification of the DeferMySponza rendering core against its specification.

The development shallowly embeds the C++ source of the repository:

* `PersistentMappedBuffer.hpp` — the multi-partitioned persistently mapped
  buffer (partition arithmetic, the two `initialise` overloads, `pointer`,
  `notifyModifiedDataRange`).
* `Renderer.cpp` / `Renderer.hpp` — the frame synchronisation protocol
  (`syncWithGPUIfNecessary`, `render`), the builder sequence of
  `Renderer::initialise`, `Renderer::clean`, and the per-frame update
  pipeline (`updateDynamicObjects` in both threading modes,
  `updatePointLights` / `updateSpotlights`).

Machine integers (`GLsizeiptr`, `GLintptr`, `GLuint`, `size_t`) are modelled
as `Nat`: every quantity involved (byte sizes, offsets, counts, indices) is
non-negative in the source and no overflowing arithmetic is relied upon.
Raw pointers are modelled as numeric addresses; mapped buffer contents are
modelled as total functions from index to stored value.  Opaque payload
values produced by floating-point maths (model matrices, light uniform
structs) are modelled as abstract `Nat` payloads computed by parameter
functions, exactly mirroring the lambda parameters of the corresponding
C++ templates.
-/

/-- `ModifiedRange` from `PersistentMappedBuffer.hpp`: a byte span
`(offset, length)` written since the last notification.  `length = 0`
denotes "nothing written". -/
structure ModifiedRange where
  offset : Nat
  length : Nat
deriving DecidableEq, Repr

/-- The observable state of a `PersistentMappedBuffer<Partitions>`:
the GL buffer id (`0` = no buffer), the persistent mapping base address
(`none` = `nullptr`), the total byte size `m_size`, and the
`m_flushable` flag. -/
structure PMBState where
  bufferId : Nat
  mapping : Option Nat
  size : Nat
  flushable : Bool
deriving DecidableEq, Repr

/-- The default-constructed `PersistentMappedBuffer`: no buffer, null
mapping, zero size, not flushable. -/
def PMBState.initial : PMBState :=
  { bufferId := 0, mapping := none, size := 0, flushable := false }

/-- The map-access flag word computed by
`PersistentMappedBuffer::getAccessFlags`, modelled bit-by-bit.
`GL_MAP_PERSISTENT_BIT` is always set; read/write/coherent bits follow the
arguments; `GL_MAP_FLUSH_EXPLICIT_BIT` is set only for non-coherent
writable mappings. -/
structure AccessFlags where
  persistentBit : Bool
  readBit : Bool
  writeBit : Bool
  coherentBit : Bool
  flushExplicitBit : Bool
deriving DecidableEq, Repr

/-- `PersistentMappedBuffer::getAccessFlags (read, write, coherent)`. -/
def PersistentMappedBuffer.getAccessFlags (read write coherent : Bool) : AccessFlags :=
  { persistentBit := true
    readBit := read
    writeBit := write
    coherentBit := coherent
    flushExplicitBit := !coherent && write }

/-- Outcomes of the external GL calls made during `initialise`:
the id handed out by `glGenBuffers` (`0` = failure, making
`Buffer::initialise` fail) and the address returned by the `mapRange`
call (`none` = mapping failure). -/
structure GLEnv where
  genBufferId : Nat
  mapBase : Option Nat
deriving DecidableEq, Repr

/-- The size overload
`PersistentMappedBuffer<P>::initialise (size, read, coherent)`.
Write access is enforced (`getAccessFlags (read, true, coherent)`), the
allocation is `size * Partitions` bytes, and on any failure the member
state is returned untouched. -/
def PersistentMappedBuffer.initialiseSize (P : Nat) (s : PMBState) (size : Nat)
    (read coherent : Bool) (env : GLEnv) : Bool × PMBState :=
  if size = 0 then (false, s)
  else if env.genBufferId = 0 then (false, s)
  else
    let access := PersistentMappedBuffer.getAccessFlags read true coherent
    let totalSize := size * P
    match env.mapBase with
    | none => (false, s)
    | some base =>
        (true, { bufferId := env.genBufferId, mapping := some base,
                 size := totalSize, flushable := access.flushExplicitBit })

/-- The data overload
`PersistentMappedBuffer<P>::initialise (data, read, write, coherent)`.
`dataSize` is the byte size reported by `Buffer::immutablyFillWith`;
the call fails if neither read nor write access is requested, if the GL
buffer cannot be created, if the data size is zero or not evenly divisible
by the partition count, or if the mapping fails, leaving the member state
untouched in every failure case. -/
def PersistentMappedBuffer.initialiseData (P : Nat) (s : PMBState) (dataSize : Nat)
    (read write coherent : Bool) (env : GLEnv) : Bool × PMBState :=
  if !read && !write then (false, s)
  else if env.genBufferId = 0 then (false, s)
  else
    let access := PersistentMappedBuffer.getAccessFlags read write coherent
    if dataSize % P ≠ 0 ∨ dataSize = 0 then (false, s)
    else
      match env.mapBase with
      | none => (false, s)
      | some base =>
          (true, { bufferId := env.genBufferId, mapping := some base,
                   size := dataSize, flushable := access.flushExplicitBit })

/-- `PersistentMappedBuffer::partitionSize`: `m_size / Partitions`. -/
def PersistentMappedBuffer.partitionSize (P : Nat) (s : PMBState) : Nat :=
  s.size / P

/-- `PersistentMappedBuffer::partitionOffset (index)`:
`index * partitionSize()`. -/
def PersistentMappedBuffer.partitionOffset (P : Nat) (s : PMBState) (index : Nat) : Nat :=
  index * PersistentMappedBuffer.partitionSize P s

/-- `PersistentMappedBuffer::pointer (partition)`: the mapping base plus
the partition offset when the index is in range, otherwise the mapping
base (`m_mapping`) itself. -/
def PersistentMappedBuffer.pointer (P : Nat) (s : PMBState) (partition : Nat) : Nat :=
  let base := s.mapping.getD 0
  if partition < P then base + PersistentMappedBuffer.partitionOffset P s partition else base

/-- `PersistentMappedBuffer::notifyModifiedDataRange (range)`, returning
the number of bytes handed to `glFlushMappedNamedBufferRange`: the range
length when the buffer is flushable, nothing otherwise. -/
def PersistentMappedBuffer.notifyModifiedDataRange (s : PMBState) (range : ModifiedRange) : Nat :=
  if s.flushable then range.length else 0

/-!
## Frame synchronisation: fences and the render step

The `Sync` class (`Rendering/Objects/Sync.hpp`) is not among the sampled
source files; only its callers in `Renderer.cpp` are.  Its operations are
therefore modelled from the specification (§4.2 FrameFence) and settled
against the caller code that is present.
-/

/-- The lifecycle states of a per-partition fence, from the spec:
`Unarmed` (never submitted, or reset) → `Armed` (device work submitted,
not yet confirmed) → `Signaled` (device confirms consumption complete). -/
inductive FenceState where
  | unarmed
  | armed
  | signaled
deriving DecidableEq, Repr

/-- Modelled from the spec: `Sync::isInitialised` — whether a fence object
exists for this partition, i.e. the partition has been submitted at least
once since the last reset. -/
def Sync.isInitialised : FenceState → Bool
  | FenceState.unarmed => false
  | _ => true

/-- Modelled from the spec: `Sync::checkIfSignalled` — the non-blocking
poll; true when the armed point has been reached, and trivially true when
the fence was never armed. -/
def Sync.checkIfSignalled : FenceState → Bool
  | FenceState.armed => false
  | _ => true

/-- Modelled from the spec: `Sync::waitForSignal (forceFlush, timeout)` —
blocks until the fence signals or the timeout expires.
`gpuSignalsInTime` abstracts whether the device reaches the completion
point within the timeout; a `false` return leaves the fence still armed. -/
def Sync.waitForSignal (fence : FenceState) (forceFlush : Bool)
    (gpuSignalsInTime : Bool) : Bool × FenceState :=
  match fence with
  | FenceState.armed =>
      if gpuSignalsInTime then (true, FenceState.signaled) else (false, FenceState.armed)
  | f => (true, f)

/-- Modelled from the spec: `Sync::initialise` — re-arms the fence by
recording a fresh completion point right after submission; `succeeds`
abstracts whether the device accepts the new fence object. -/
def Sync.initialiseFence (succeeds : Bool) (fence : FenceState) : Bool × FenceState :=
  if succeeds then (true, FenceState.armed) else (false, fence)

/-- `Renderer::syncWithGPUIfNecessary` from `Renderer.cpp`: skip if the
partition's sync object was never initialised; otherwise poll, and when
the poll fails perform a blocking wait with `forceFlush = true` and a one
second timeout.  `assert (result)` on a timed-out wait is modelled as a
fatal outcome (`none`). -/
def Renderer.syncWithGPUIfNecessary (fence : FenceState) (gpuSignalsInTime : Bool) :
    Option FenceState :=
  if Sync.isInitialised fence then
    if Sync.checkIfSignalled fence then some fence
    else
      let wait := Sync.waitForSignal fence true gpuSignalsInTime
      if wait.1 then some wait.2 else none
  else some fence

/-- Generic indexed write: the contents of a mapped buffer (or fence
array) after storing `v` at index `i`. -/
def writeAt {α : Type} (buffer : Nat → α) (i : Nat) (v : α) : Nat → α :=
  fun j => if j = i then v else buffer j

/-- The observable state of the `Renderer` members that the claims are
about: the scene pointer, the initialised-flags of each built subsystem,
the resolutions, the configuration toggles, the current partition index
and the per-partition fences. -/
structure RendererState where
  scene : Option Nat
  programs : Bool
  materials : Bool
  dynamicObjectBuffers : Bool
  lightBuffers : Bool
  geometry : Bool
  framebuffers : Bool
  uniforms : Bool
  dynamicsFilled : Bool
  internalWidth : Nat
  internalHeight : Nat
  displayWidth : Nat
  displayHeight : Nat
  deferredRender : Bool
  multiThreaded : Bool
  partition : Nat
  fences : Nat → FenceState

/-- The default-constructed `Renderer` (member initialisers in
`Renderer.hpp`): nothing built, partition `0`, deferred rendering and
multi-threading on, every sync object uninitialised. -/
def Renderer.initialState : RendererState :=
  { scene := none, programs := false, materials := false,
    dynamicObjectBuffers := false, lightBuffers := false, geometry := false,
    framebuffers := false, uniforms := false, dynamicsFilled := false,
    internalWidth := 0, internalHeight := 0, displayWidth := 0, displayHeight := 0,
    deferredRender := true, multiThreaded := true, partition := 0,
    fences := fun _ => FenceState.unarmed }

/-- `Renderer::clean` from `Renderer.cpp`: drops the scene pointer,
cleans every built subsystem, zeroes the resolutions, restores
`m_deferredRender = true` and cleans each sync object.  Note the source
does not touch `m_partition` or `m_multiThreaded`. -/
def Renderer.clean (s : RendererState) : RendererState :=
  { scene := none, programs := false, materials := false,
    dynamicObjectBuffers := false, lightBuffers := false, geometry := false,
    framebuffers := false, uniforms := false, dynamicsFilled := false,
    internalWidth := 0, internalHeight := 0, displayWidth := 0, displayHeight := 0,
    deferredRender := true, multiThreaded := s.multiThreaded,
    partition := s.partition, fences := fun _ => FenceState.unarmed }

/-- The success of each builder step invoked by `Renderer::initialise`,
abstracting the GL and asset work each performs. -/
structure BuildOutcomes where
  programs : Bool
  materials : Bool
  dynamicObjectBuffers : Bool
  lightBuffers : Bool
  geometry : Bool
  framebuffers : Bool
  uniforms : Bool
deriving DecidableEq, Repr

/-- `Renderer::initialise` from `Renderer.cpp`: stores the scene pointer,
then runs the builder steps in order — programs, materials, dynamic
object buffers, light buffers, geometry, the resolution setters,
framebuffers, uniforms — returning `false` at the first failing step
without executing the rest, and filling the dynamic instances on success.
The source performs no cleanup on the failure paths. -/
def Renderer.initialise (s : RendererState) (scene : Nat)
    (internalRes displayRes : Nat × Nat) (env : BuildOutcomes) : Bool × RendererState :=
  let s1 := { s with scene := some scene }
  if !env.programs then (false, s1) else
  let s2 := { s1 with programs := true }
  if !env.materials then (false, s2) else
  let s3 := { s2 with materials := true }
  if !env.dynamicObjectBuffers then (false, s3) else
  let s4 := { s3 with dynamicObjectBuffers := true }
  if !env.lightBuffers then (false, s4) else
  let s5 := { s4 with lightBuffers := true }
  if !env.geometry then (false, s5) else
  let s6 := { s5 with geometry := true }
  let s7 := { s6 with internalWidth := internalRes.1, internalHeight := internalRes.2,
                      displayWidth := displayRes.1, displayHeight := displayRes.2 }
  if !env.framebuffers then (false, s7) else
  let s8 := { s7 with framebuffers := true }
  if !env.uniforms then (false, s8) else
  (true, { s8 with uniforms := true, dynamicsFilled := true })

/-- The externally observable milestones of one `Renderer::render` call,
in program order. -/
inductive RenderEvent where
  | waitForFence (partition : Nat)
  | handPartitionToWrite (partition : Nat) (fence : FenceState)
  | draw (partition : Nat)
  | armFence (partition : Nat)
  | advancePartition (nextPartition : Nat)
deriving DecidableEq, Repr

/-- The per-frame environment of `Renderer::render`: whether the device
signals an armed fence within the one-second wait, and whether re-arming
the partition's fence after submission succeeds. -/
structure RenderEnv where
  gpuSignalsInTime : Bool
  fenceArmSucceeds : Bool
deriving DecidableEq, Repr

/-- `Renderer::render` from `Renderer.cpp`, restricted to its
synchronisation skeleton: first `syncWithGPUIfNecessary` on the current
partition `k` (fatal on fence timeout, before anything is written); only
then are the update-pipeline tasks handed partition `k` to write and the
draws issued; afterwards `m_syncs[k].initialise()` re-arms the fence
(`assert (false)` on failure, modelled fatal) and
`++m_partition %= multiBuffering` advances the partition.  `P` is the
`types::multiBuffering` partition count.  The returned trace records the
milestones that occurred, in order, up to any fatal condition. -/
def Renderer.render (P : Nat) (s : RendererState) (env : RenderEnv) :
    Option RendererState × List RenderEvent :=
  let k := s.partition
  match Renderer.syncWithGPUIfNecessary (s.fences k) env.gpuSignalsInTime with
  | none => (none, [RenderEvent.waitForFence k])
  | some f =>
      let s1 := { s with fences := writeAt s.fences k f }
      let events := [RenderEvent.handPartitionToWrite k f, RenderEvent.draw k]
      let arm := Sync.initialiseFence env.fenceArmSucceeds (s1.fences k)
      if arm.1 then
        let s2 := { s1 with fences := writeAt s1.fences k arm.2,
                            partition := (k + 1) % P }
        (some s2, events ++ [RenderEvent.armFence k, RenderEvent.advancePartition ((k + 1) % P)])
      else
        (none, events ++ [RenderEvent.armFence k])

/-!
## The dynamic-object update pipeline (`Renderer::updateDynamicObjects`)

`m_dynamics` is a vector of `MeshInstances` (a mesh plus the instance ids
of its dynamic instances) filled once by `fillDynamicInstances`; its order
is the fixed iteration order of every per-frame pass.  The three
destination buffers of one partition are modelled as index-to-value
functions; the `ModelTransform` payload of an instance and the
`MaterialID` produced by the materials table are abstract `Nat` values.
-/

/-- The per-mesh rendering data consumed by a draw command
(`Rendering/Renderer/Geometry/Mesh.hpp`). -/
structure Mesh where
  elementCount : Nat
  elementsIndex : Nat
  verticesIndex : Nat
deriving DecidableEq, Repr

/-- A scene instance as read by the update pipeline: its model transform
payload (`toGLM (instance.getTransformationMatrix())`) and its material
id. -/
structure SceneInstance where
  transformationMatrix : Nat
  materialId : Nat
deriving DecidableEq, Repr

/-- `Renderer::MeshInstances`: rendering data for one mesh plus the ids
of the dynamic instances that use it. -/
structure MeshInstances where
  mesh : Mesh
  instances : List Nat
deriving DecidableEq, Repr

/-- `MultiDrawElementsIndirectCommand`: one indirect draw command
`(elementCount, instanceCount, elementsIndex, verticesIndex,
baseInstance)`. -/
structure MultiDrawElementsIndirectCommand where
  elementCount : Nat
  instanceCount : Nat
  elementsIndex : Nat
  verticesIndex : Nat
  baseInstance : Nat
deriving DecidableEq, Repr

/-- The contents of one partition of the three dynamic-object buffers:
`m_objectDrawing.buffer`, `m_objectTransforms` and `m_objectMaterialIDs`. -/
@[ext]
structure DynBuffers where
  drawCommands : Nat → MultiDrawElementsIndirectCommand
  transforms : Nat → Nat
  materialIDs : Nat → Nat

/-- The instance loop of `forEachDynamicMeshInstance (func)` over one
mesh's instance list: starting at global instance index `index`, call
`func` on each instance id and write its value at that index, mirroring
`func (index++, m_scene->getInstanceById (instanceID))` for a `func` that
writes one buffer entry. -/
def forEachInstanceWrite (func : Nat → Nat) :
    List Nat → Nat → (Nat → Nat) → (Nat → Nat)
  | [], _, buffer => buffer
  | id :: rest, index, buffer =>
      forEachInstanceWrite func rest (index + 1) (writeAt buffer index (func id))

/-- The mesh loop of `forEachDynamicMeshInstance (func)` (no extra mesh
functions): the meshes are visited in `m_dynamics` order while the global
instance index accumulates across meshes. -/
def forEachMeshInstanceWrite (func : Nat → Nat) :
    List MeshInstances → Nat → (Nat → Nat) → (Nat → Nat)
  | [], _, buffer => buffer
  | mi :: rest, index, buffer =>
      forEachMeshInstanceWrite func rest (index + mi.instances.length)
        (forEachInstanceWrite func mi.instances index buffer)

/-- `forEachDynamicMesh (addDrawCommand)`: for each mesh, in `m_dynamics`
order, write
`drawCommandBuffer[index] = { mesh.elementCount, instanceCount,
mesh.elementsIndex, mesh.verticesIndex, baseInstance }` and advance
`baseInstance += instanceCount`. -/
def forEachMeshDrawCommand :
    List MeshInstances → Nat → Nat → (Nat → MultiDrawElementsIndirectCommand) →
    (Nat → MultiDrawElementsIndirectCommand)
  | [], _, _, buffer => buffer
  | mi :: rest, meshIndex, baseInstance, buffer =>
      forEachMeshDrawCommand rest (meshIndex + 1) (baseInstance + mi.instances.length)
        (writeAt buffer meshIndex
          { elementCount := mi.mesh.elementCount,
            instanceCount := mi.instances.length,
            elementsIndex := mi.mesh.elementsIndex,
            verticesIndex := mi.mesh.verticesIndex,
            baseInstance := baseInstance })

/-- The instance loop of the single-threaded pass with
`addTransformAndMaterialID`: at each global instance index write both the
transform and the material id of the instance. -/
def writeInstanceEntries (scene : Nat → SceneInstance) (mats : Nat → Nat) :
    List Nat → Nat → DynBuffers → DynBuffers
  | [], _, bufs => bufs
  | id :: rest, index, bufs =>
      let inst := scene id
      writeInstanceEntries scene mats rest (index + 1)
        { bufs with
          transforms := writeAt bufs.transforms index inst.transformationMatrix,
          materialIDs := writeAt bufs.materialIDs index (mats inst.materialId) }

/-- The single-threaded branch of `Renderer::updateDynamicObjects`
(`!m_multiThreaded`): one sequential pass
`forEachDynamicMeshInstance (addTransformAndMaterialID, addDrawCommand)` —
for each mesh, first every instance's transform and material id are
written at the running instance index, then the mesh's draw command is
written at the running mesh index and `baseInstance` advances by the
mesh's instance count. -/
def updateDynamicObjectsSingle (scene : Nat → SceneInstance) (mats : Nat → Nat) :
    List MeshInstances → Nat → Nat → Nat → DynBuffers → DynBuffers
  | [], _, _, _, bufs => bufs
  | mi :: rest, meshIndex, instanceIndex, baseInstance, bufs =>
      let bufs1 := writeInstanceEntries scene mats mi.instances instanceIndex bufs
      let cmd : MultiDrawElementsIndirectCommand :=
        { elementCount := mi.mesh.elementCount,
          instanceCount := mi.instances.length,
          elementsIndex := mi.mesh.elementsIndex,
          verticesIndex := mi.mesh.verticesIndex,
          baseInstance := baseInstance }
      let bufs2 := { bufs1 with drawCommands := writeAt bufs1.drawCommands meshIndex cmd }
      updateDynamicObjectsSingle scene mats rest (meshIndex + 1)
        (instanceIndex + mi.instances.length) (baseInstance + mi.instances.length) bufs2

/-- The multi-threaded branch of `Renderer::updateDynamicObjects`: three
passes over disjoint buffers — `forEachDynamicMeshInstance (addTransform)`
and `forEachDynamicMeshInstance (addMaterialID)` on worker threads and
`forEachDynamicMesh (addDrawCommand)` on the calling thread.  The tasks
write disjoint buffers, so their concurrent execution is modelled by the
three sequential passes. -/
def updateDynamicObjectsMulti (scene : Nat → SceneInstance) (mats : Nat → Nat)
    (dynamics : List MeshInstances) (bufs : DynBuffers) : DynBuffers :=
  { drawCommands := forEachMeshDrawCommand dynamics 0 0 bufs.drawCommands,
    transforms :=
      forEachMeshInstanceWrite (fun id => (scene id).transformationMatrix) dynamics 0 bufs.transforms,
    materialIDs :=
      forEachMeshInstanceWrite (fun id => mats (scene id).materialId) dynamics 0 bufs.materialIDs }

/-- `Renderer::updateDynamicObjects`: dispatch on `m_multiThreaded`
between the sequential single pass and the concurrent per-buffer passes,
both starting from mesh index `0`, instance index `0` and base instance
`0` of the current partition. -/
def Renderer.updateDynamicObjects (multiThreaded : Bool) (scene : Nat → SceneInstance)
    (mats : Nat → Nat) (dynamics : List MeshInstances) (bufs : DynBuffers) : DynBuffers :=
  if multiThreaded then updateDynamicObjectsMulti scene mats dynamics bufs
  else updateDynamicObjectsSingle scene mats dynamics 0 0 0 bufs

/-- The sum of the dynamic-instance counts of the meshes strictly before
position `i` of the `m_dynamics` iteration order. -/
def sumInstancesBefore (dynamics : List MeshInstances) (i : Nat) : Nat :=
  ((dynamics.map (fun mi => mi.instances.length)).take i).sum

/-- The total number of dynamic instances across all meshes. -/
def totalDynamicInstances (dynamics : List MeshInstances) : Nat :=
  (dynamics.map (fun mi => mi.instances.length)).sum

/-!
## The light update tasks (`Renderer::updatePointLights` /
`Renderer::updateSpotlights`)

`FullBlock<T>` uniform blocks hold a light count and an array of light
entries; the float-valued lambdas that translate a scene light into a
uniform entry or a volume model transform are the `uniFunc` / `transFunc`
parameters, exactly as in the `processLightUniforms` /
`processLightVolumes` templates of `Renderer.hpp`.  Byte sizes of the
count field, one uniform entry and one `ModelTransform` are the
parameters `countSize`, `lightSize` and `matrixSize`.
-/

/-- The contents of one `FullBlock<T>` uniform block: the light count and
the per-light entries. -/
structure LightBlock where
  count : Nat
  objects : Nat → Nat

/-- The entry loop of `Renderer::processLightUniforms`: write
`uniforms.data->objects[i] = func (lights[i])` for each light. -/
def writeLightEntries (func : Nat → Nat) :
    List Nat → Nat → (Nat → Nat) → (Nat → Nat)
  | [], _, objects => objects
  | l :: rest, i, objects =>
      writeLightEntries func rest (i + 1) (writeAt objects i (func l))

/-- `Renderer::processLightUniforms` (template in `Renderer.hpp`): set
the block's light count, fill one uniform entry per light, and return the
modified range `(uniforms.offset, countSize + lightSize * count)`. -/
def Renderer.processLightUniforms (uniformsOffset : Nat) (block : LightBlock)
    (lights : List Nat) (func : Nat → Nat) (countSize lightSize : Nat) :
    LightBlock × ModifiedRange :=
  let count := lights.length
  let objects := writeLightEntries func lights 0 block.objects
  ({ count := count, objects := objects },
   { offset := uniformsOffset, length := countSize + lightSize * count })

/-- The entry loop of `Renderer::processLightVolumes`: write both
`uniforms.data->objects[i]` and
`transforms[transformOffset + i]` for each light. -/
def writeLightVolumeEntries (uniFunc transFunc : Nat → Nat) :
    List Nat → Nat → Nat → (Nat → Nat) → (Nat → Nat) → (Nat → Nat) × (Nat → Nat)
  | [], _, _, objects, transforms => (objects, transforms)
  | l :: rest, i, transformOffset, objects, transforms =>
      writeLightVolumeEntries uniFunc transFunc rest (i + 1) transformOffset
        (writeAt objects i (uniFunc l))
        (writeAt transforms (transformOffset + i) (transFunc l))

/-- `Renderer::processLightVolumes` (template in `Renderer.hpp`): set the
block's light count, fill a uniform entry and a volume model transform
(at the same relative index, offset by `transformOffset`) per light, and
return the uniform range plus the transform range
`(lightTransformsPartitionOffset + matrixSize * transformOffset,
matrixSize * count)`. -/
def Renderer.processLightVolumes (uniformsOffset : Nat) (block : LightBlock)
    (lights : List Nat) (transformOffset : Nat) (uniFunc transFunc : Nat → Nat)
    (transformBuffer : Nat → Nat)
    (countSize lightSize matrixSize lightTransformsPartitionOffset : Nat) :
    (LightBlock × (Nat → Nat)) × (ModifiedRange × ModifiedRange) :=
  let count := lights.length
  let written := writeLightVolumeEntries uniFunc transFunc lights 0 transformOffset
      block.objects transformBuffer
  let matrixOffset := lightTransformsPartitionOffset + matrixSize * transformOffset
  (({ count := count, objects := written.1 }, written.2),
   ({ offset := uniformsOffset, length := countSize + lightSize * count },
    { offset := matrixOffset, length := matrixSize * count }))

/-- `Renderer::updatePointLights`: when `m_deferredRender` is set, write
uniform entries and volume transforms via `processLightVolumes`;
otherwise (forward rendering) write only the uniform entries and pair the
result with the empty range `{ 0, 0 }`, leaving the light-transform
buffer untouched. -/
def Renderer.updatePointLights (deferredRender : Bool) (lights : List Nat)
    (transformOffset : Nat) (uniFunc transFunc : Nat → Nat) (block : LightBlock)
    (uniformsOffset : Nat) (transformBuffer : Nat → Nat)
    (countSize lightSize matrixSize lightTransformsPartitionOffset : Nat) :
    (LightBlock × (Nat → Nat)) × (ModifiedRange × ModifiedRange) :=
  if deferredRender then
    Renderer.processLightVolumes uniformsOffset block lights transformOffset uniFunc transFunc
      transformBuffer countSize lightSize matrixSize lightTransformsPartitionOffset
  else
    let result := Renderer.processLightUniforms uniformsOffset block lights uniFunc
      countSize lightSize
    ((result.1, transformBuffer), (result.2, { offset := 0, length := 0 }))

/-- `Renderer::updateSpotlights`: identical control flow to
`updatePointLights` with the spotlight translation lambdas. -/
def Renderer.updateSpotlights (deferredRender : Bool) (lights : List Nat)
    (transformOffset : Nat) (uniFunc transFunc : Nat → Nat) (block : LightBlock)
    (uniformsOffset : Nat) (transformBuffer : Nat → Nat)
    (countSize lightSize matrixSize lightTransformsPartitionOffset : Nat) :
    (LightBlock × (Nat → Nat)) × (ModifiedRange × ModifiedRange) :=
  if deferredRender then
    Renderer.processLightVolumes uniformsOffset block lights transformOffset uniFunc transFunc
      transformBuffer countSize lightSize matrixSize lightTransformsPartitionOffset
  else
    let result := Renderer.processLightUniforms uniformsOffset block lights uniFunc
      countSize lightSize
    ((result.1, transformBuffer), (result.2, { offset := 0, length := 0 }))

/-!
## Theorems

The concrete states used by witnesses follow; then one theorem (plus
witness where hypotheses are present) per claim.
-/

/-- A successfully initialised triple-partitioned buffer of six bytes
mapped at address `100`, used by witnesses. -/
def pmbSix : PMBState :=
  { bufferId := 1, mapping := some 100, size := 6, flushable := true }

/-- C5: for every successfully initialised buffer — so `Partitions`
divides `m_size`, which both `initialise` overloads guarantee — the
partitions tile the buffer exactly: `partitionOffset i + partitionSize =
partitionOffset (i+1)` for `i` in `[0, P-1)` and
`partitionOffset (P-1) + partitionSize = m_size`. -/
theorem partitionOffset_tiles_buffer (P : Nat) (s : PMBState)
    (hP : 0 < P) (hdiv : P ∣ s.size) :
    (∀ i, i + 1 < P →
      PersistentMappedBuffer.partitionOffset P s i + PersistentMappedBuffer.partitionSize P s =
        PersistentMappedBuffer.partitionOffset P s (i + 1)) ∧
    (PersistentMappedBuffer.partitionOffset P s (P - 1) +
        PersistentMappedBuffer.partitionSize P s = s.size) ∧
    (∀ s0 size read coherent env result,
      PersistentMappedBuffer.initialiseSize P s0 size read coherent env = (true, result) →
      P ∣ result.size) ∧
    (∀ s0 dataSize read write coherent env result,
      PersistentMappedBuffer.initialiseData P s0 dataSize read write coherent env =
        (true, result) → P ∣ result.size) := by
  refine ⟨?_, ?_, ?_, ?_⟩
  · intro i _
    simp [PersistentMappedBuffer.partitionOffset, Nat.succ_mul]
  · have hcancel : P * (s.size / P) = s.size := Nat.mul_div_cancel' hdiv
    have hsub : P - 1 + 1 = P := Nat.succ_pred_eq_of_pos hP
    calc PersistentMappedBuffer.partitionOffset P s (P - 1) +
          PersistentMappedBuffer.partitionSize P s
        = (P - 1) * (s.size / P) + s.size / P := rfl
      _ = (P - 1 + 1) * (s.size / P) := by rw [Nat.succ_mul]
      _ = P * (s.size / P) := by rw [hsub]
      _ = s.size := hcancel
  · intro s0 size read coherent env result h
    unfold PersistentMappedBuffer.initialiseSize at h
    split at h
    · simp at h
    · split at h
      · simp at h
      · split at h
        · simp at h
        · rw [Prod.mk.injEq] at h
          rw [← h.2]
          exact dvd_mul_left P size
  · intro s0 dataSize read write coherent env result h
    unfold PersistentMappedBuffer.initialiseData at h
    split at h
    · simp at h
    · split at h
      · simp at h
      · split at h
        · simp at h
        · split at h
          · simp at h
          · rw [Prod.mk.injEq] at h
            rw [← h.2]
            show P ∣ dataSize
            have hmod : dataSize % P = 0 := by
              by_contra hc
              simp_all
            exact Nat.dvd_of_mod_eq_zero hmod

/-- C5 witness: the tiling at `P = 3`, `m_size = 6`. -/
theorem partitionOffset_tiles_buffer_witness :
    0 < 3 ∧ (3 : Nat) ∣ pmbSix.size ∧
    PersistentMappedBuffer.partitionOffset 3 pmbSix (3 - 1) +
      PersistentMappedBuffer.partitionSize 3 pmbSix = pmbSix.size :=
  ⟨by decide, by decide, (partitionOffset_tiles_buffer 3 pmbSix (by decide) (by decide)).2.1⟩

/-- Case analysis of the size overload: every run either fails returning
the untouched state, or succeeds. -/
theorem initialiseSize_cases (P : Nat) (s : PMBState) (size : Nat)
    (read coherent : Bool) (env : GLEnv) :
    PersistentMappedBuffer.initialiseSize P s size read coherent env = (false, s) ∨
    (PersistentMappedBuffer.initialiseSize P s size read coherent env).1 = true := by
  unfold PersistentMappedBuffer.initialiseSize
  repeat' split
  all_goals first | exact Or.inl rfl | exact Or.inr rfl

/-- Case analysis of the data overload: every run either fails returning
the untouched state, or succeeds. -/
theorem initialiseData_cases (P : Nat) (s : PMBState) (dataSize : Nat)
    (read write coherent : Bool) (env : GLEnv) :
    PersistentMappedBuffer.initialiseData P s dataSize read write coherent env = (false, s) ∨
    (PersistentMappedBuffer.initialiseData P s dataSize read write coherent env).1 = true := by
  unfold PersistentMappedBuffer.initialiseData
  repeat' split
  all_goals first | exact Or.inl rfl | exact Or.inr rfl

/-- C6: every configuration error of the two `initialise` overloads — a
zero byte size, a data size not evenly divisible by the partition count,
neither read nor write access requested — and every allocation or mapping
failure makes the call return `false`, and every `false` return leaves
the object exactly as it was. -/
theorem initialise_failure_unchanged :
    (∀ P s size read coherent env,
      (PersistentMappedBuffer.initialiseSize P s size read coherent env).1 = false →
      (PersistentMappedBuffer.initialiseSize P s size read coherent env).2 = s) ∧
    (∀ P s dataSize read write coherent env,
      (PersistentMappedBuffer.initialiseData P s dataSize read write coherent env).1 = false →
      (PersistentMappedBuffer.initialiseData P s dataSize read write coherent env).2 = s) ∧
    (∀ P s read coherent env,
      (PersistentMappedBuffer.initialiseSize P s 0 read coherent env).1 = false) ∧
    (∀ P s size read coherent mapBase,
      (PersistentMappedBuffer.initialiseSize P s size read coherent ⟨0, mapBase⟩).1 = false) ∧
    (∀ P s size read coherent genId,
      (PersistentMappedBuffer.initialiseSize P s size read coherent ⟨genId, none⟩).1 = false) ∧
    (∀ P s dataSize coherent env,
      (PersistentMappedBuffer.initialiseData P s dataSize false false coherent env).1 = false) ∧
    (∀ P s dataSize read write coherent env, dataSize % P ≠ 0 →
      (PersistentMappedBuffer.initialiseData P s dataSize read write coherent env).1 = false) ∧
    (∀ P s read write coherent env,
      (PersistentMappedBuffer.initialiseData P s 0 read write coherent env).1 = false) ∧
    (∀ P s dataSize read write coherent mapBase,
      (PersistentMappedBuffer.initialiseData P s dataSize read write coherent ⟨0, mapBase⟩).1 =
        false) ∧
    (∀ P s dataSize read write coherent genId,
      (PersistentMappedBuffer.initialiseData P s dataSize read write coherent ⟨genId, none⟩).1 =
        false) := by
  refine ⟨?_, ?_, ?_, ?_, ?_, ?_, ?_, ?_, ?_, ?_⟩
  · intro P s size read coherent env h
    rcases initialiseSize_cases P s size read coherent env with hc | hc
    · rw [hc]
    · simp [hc] at h
  · intro P s dataSize read write coherent env h
    rcases initialiseData_cases P s dataSize read write coherent env with hc | hc
    · rw [hc]
    · simp [hc] at h
  · intro P s read coherent env
    unfold PersistentMappedBuffer.initialiseSize
    simp
  · intro P s size read coherent mapBase
    unfold PersistentMappedBuffer.initialiseSize
    repeat' split <;> simp_all
  · intro P s size read coherent genId
    unfold PersistentMappedBuffer.initialiseSize
    repeat' split <;> simp_all
  · intro P s dataSize coherent env
    unfold PersistentMappedBuffer.initialiseData
    simp
  · intro P s dataSize read write coherent env h
    unfold PersistentMappedBuffer.initialiseData
    repeat' split <;> simp_all
  · intro P s read write coherent env
    unfold PersistentMappedBuffer.initialiseData
    repeat' split <;> simp_all
  · intro P s dataSize read write coherent mapBase
    unfold PersistentMappedBuffer.initialiseData
    repeat' split <;> simp_all
  · intro P s dataSize read write coherent genId
    unfold PersistentMappedBuffer.initialiseData
    repeat' split <;> simp_all

/-- C6 witness: the zero-size configuration error at `P = 3` on the
default-constructed buffer returns `false` and leaves the state
untouched. -/
theorem initialise_failure_unchanged_witness :
    (PersistentMappedBuffer.initialiseSize 3 PMBState.initial 0 true true ⟨1, some 100⟩).1 =
        false ∧
    (PersistentMappedBuffer.initialiseSize 3 PMBState.initial 0 true true ⟨1, some 100⟩).2 =
        PMBState.initial :=
  ⟨by decide,
   initialise_failure_unchanged.1 3 PMBState.initial 0 true true ⟨1, some 100⟩ (by decide)⟩

/-- C9: on an initialised buffer, `pointer` returns the mapping base plus
`partition * partitionSize` for a valid partition index, and degrades to
the mapping base (the start of partition `0`) for every out-of-range
index. -/
theorem pointer_partition_lookup (P : Nat) (s : PMBState) (base partition : Nat)
    (hmap : s.mapping = some base) :
    (partition < P →
      PersistentMappedBuffer.pointer P s partition =
        base + partition * PersistentMappedBuffer.partitionSize P s) ∧
    (¬ partition < P → PersistentMappedBuffer.pointer P s partition = base) := by
  unfold PersistentMappedBuffer.pointer PersistentMappedBuffer.partitionOffset
  constructor <;> intro h <;> simp [hmap, h]

/-- C9 witness: on the six-byte triple buffer mapped at `100`, partition
`5` is out of range and `pointer` returns the mapping base `100`. -/
theorem pointer_partition_lookup_witness :
    pmbSix.mapping = some 100 ∧ ¬ 5 < 3 ∧
    PersistentMappedBuffer.pointer 3 pmbSix 5 = 100 :=
  ⟨rfl, by decide, (pointer_partition_lookup 3 pmbSix 100 5 rfl).2 (by decide)⟩

/-- C10: with forward rendering selected (`m_deferredRender = false`),
`updatePointLights` and `updateSpotlights` take the `processLightUniforms`
path: the light-transform buffer is returned untouched, the transforms
component of the returned range pair is the "nothing written" value
`{ 0, 0 }`, and a flush notification over that range covers zero bytes. -/
theorem forward_mode_lights_write_no_transforms
    (lightsP lightsS : List Nat) (transformOffset : Nat)
    (uniFuncP transFuncP uniFuncS transFuncS : Nat → Nat)
    (blockP blockS : LightBlock) (uniformsOffsetP uniformsOffsetS : Nat)
    (transformBuffer : Nat → Nat)
    (countSize lightSize matrixSize lightTransformsPartitionOffset : Nat)
    (pmb : PMBState) :
    ((Renderer.updatePointLights false lightsP transformOffset uniFuncP transFuncP blockP
        uniformsOffsetP transformBuffer countSize lightSize matrixSize
        lightTransformsPartitionOffset).1.2 = transformBuffer) ∧
    ((Renderer.updatePointLights false lightsP transformOffset uniFuncP transFuncP blockP
        uniformsOffsetP transformBuffer countSize lightSize matrixSize
        lightTransformsPartitionOffset).1.1 =
      (Renderer.processLightUniforms uniformsOffsetP blockP lightsP uniFuncP
        countSize lightSize).1) ∧
    ((Renderer.updatePointLights false lightsP transformOffset uniFuncP transFuncP blockP
        uniformsOffsetP transformBuffer countSize lightSize matrixSize
        lightTransformsPartitionOffset).2.2 = { offset := 0, length := 0 }) ∧
    (PersistentMappedBuffer.notifyModifiedDataRange pmb
      (Renderer.updatePointLights false lightsP transformOffset uniFuncP transFuncP blockP
        uniformsOffsetP transformBuffer countSize lightSize matrixSize
        lightTransformsPartitionOffset).2.2 = 0) ∧
    ((Renderer.updateSpotlights false lightsS transformOffset uniFuncS transFuncS blockS
        uniformsOffsetS transformBuffer countSize lightSize matrixSize
        lightTransformsPartitionOffset).1.2 = transformBuffer) ∧
    ((Renderer.updateSpotlights false lightsS transformOffset uniFuncS transFuncS blockS
        uniformsOffsetS transformBuffer countSize lightSize matrixSize
        lightTransformsPartitionOffset).1.1 =
      (Renderer.processLightUniforms uniformsOffsetS blockS lightsS uniFuncS
        countSize lightSize).1) ∧
    ((Renderer.updateSpotlights false lightsS transformOffset uniFuncS transFuncS blockS
        uniformsOffsetS transformBuffer countSize lightSize matrixSize
        lightTransformsPartitionOffset).2.2 = { offset := 0, length := 0 }) ∧
    (PersistentMappedBuffer.notifyModifiedDataRange pmb
      (Renderer.updateSpotlights false lightsS transformOffset uniFuncS transFuncS blockS
        uniformsOffsetS transformBuffer countSize lightSize matrixSize
        lightTransformsPartitionOffset).2.2 = 0) := by
  refine ⟨rfl, rfl, rfl, ?_, rfl, rfl, rfl, ?_⟩ <;>
    · show (if pmb.flushable then _ else 0) = 0
      split <;> rfl

/-- A fence wait can only end in a non-armed fence: whatever fence state
`syncWithGPUIfNecessary` returns to the caller is unarmed or signaled. -/
theorem syncWithGPUIfNecessary_not_armed (fence : FenceState) (gpuSignalsInTime : Bool)
    (f : FenceState) (h : Renderer.syncWithGPUIfNecessary fence gpuSignalsInTime = some f) :
    f ≠ FenceState.armed := by
  cases fence <;> cases gpuSignalsInTime <;>
    simp_all [Renderer.syncWithGPUIfNecessary, Sync.isInitialised,
      Sync.checkIfSignalled, Sync.waitForSignal] <;>
    subst h <;> simp

/-- C1: in every `render` call, the current partition is handed to the
update-pipeline write step only after `syncWithGPUIfNecessary` has run:
whenever a hand-off event appears in the trace, it names the current
partition and the fence observed at hand-off is not armed-and-unsignaled
(the armed case having been resolved by the blocking
`waitForSignal (forceFlush = true)`). -/
theorem render_handoff_fence_not_armed (P : Nat) (s : RendererState) (env : RenderEnv)
    (k : Nat) (f : FenceState)
    (h : RenderEvent.handPartitionToWrite k f ∈ (Renderer.render P s env).2) :
    k = s.partition ∧ f ≠ FenceState.armed := by
  simp only [Renderer.render] at h
  cases hs : Renderer.syncWithGPUIfNecessary (s.fences s.partition) env.gpuSignalsInTime with
  | none => rw [hs] at h; simp at h
  | some f' =>
      rw [hs] at h
      have hresult := syncWithGPUIfNecessary_not_armed _ _ _ hs
      by_cases harm : env.fenceArmSucceeds <;>
        · simp [harm, Sync.initialiseFence, writeAt] at h
          exact ⟨h.1, h.2 ▸ hresult⟩

/-- The ready renderer used by the synchronisation witnesses: partition
`0`'s fence is armed. -/
def rendererFenceArmed : RendererState :=
  { Renderer.initialState with fences := fun _ => FenceState.armed }

/-- C1 witness: with partition 0's fence armed and a device that signals
within the timeout, the hand-off event of the trace carries the signaled
fence, which the theorem certifies is not armed. -/
theorem render_handoff_fence_not_armed_witness :
    (RenderEvent.handPartitionToWrite 0 FenceState.signaled ∈
      (Renderer.render 3 rendererFenceArmed ⟨true, true⟩).2) ∧
    (0 = rendererFenceArmed.partition ∧ FenceState.signaled ≠ FenceState.armed) :=
  ⟨by decide,
   render_handoff_fence_not_armed 3 rendererFenceArmed ⟨true, true⟩ 0 FenceState.signaled
     (by decide)⟩

/-- C7: an expired fence wait is fatal, not retried or ignored.  When the
current partition's fence is armed and the device does not signal within
the timeout, `waitForSignal` returns `false`, `render` ends with no
resulting state (`assert (result)` in `syncWithGPUIfNecessary`), and no
hand-off to the partition write step appears in the trace. -/
theorem render_timeout_is_fatal (P : Nat) (s : RendererState) (env : RenderEnv)
    (harmed : s.fences s.partition = FenceState.armed)
    (htimeout : env.gpuSignalsInTime = false) :
    Sync.waitForSignal (s.fences s.partition) true env.gpuSignalsInTime =
      (false, FenceState.armed) ∧
    (Renderer.render P s env).1 = none ∧
    (∀ k f, RenderEvent.handPartitionToWrite k f ∉ (Renderer.render P s env).2) := by
  have hsync : Renderer.syncWithGPUIfNecessary (s.fences s.partition) env.gpuSignalsInTime =
      none := by
    rw [harmed, htimeout]
    rfl
  refine ⟨by rw [harmed, htimeout]; rfl, ?_, ?_⟩
  · simp only [Renderer.render]
    rw [hsync]
  · intro k f
    simp only [Renderer.render]
    rw [hsync]
    simp

/-- C7 witness: at `P = 3` with every fence armed and a device that never
signals, `render` is fatal and hands nothing to the write step. -/
theorem render_timeout_is_fatal_witness :
    rendererFenceArmed.fences rendererFenceArmed.partition = FenceState.armed ∧
    (Renderer.render 3 rendererFenceArmed ⟨false, true⟩).1 = none :=
  ⟨rfl, (render_timeout_is_fatal 3 rendererFenceArmed ⟨false, true⟩ rfl rfl).2.1⟩

/-- C4: the current partition index.  Every completed `render` sets it to
`(currentPartition + 1) % P` — the `++m_partition %= multiBuffering`
statement — exactly once, keeping it inside `[0, P)`; it starts at `0`;
and neither `Renderer::clean` nor `Renderer::initialise` modifies it. -/
theorem partition_advance_invariant :
    (∀ P s env s', (Renderer.render P s env).1 = some s' →
      s'.partition = (s.partition + 1) % P) ∧
    (∀ P s env s', 0 < P → (Renderer.render P s env).1 = some s' → s'.partition < P) ∧
    (∀ s, (Renderer.clean s).partition = s.partition) ∧
    (∀ s scene internalRes displayRes env,
      ((Renderer.initialise s scene internalRes displayRes env).2).partition = s.partition) ∧
    Renderer.initialState.partition = 0 := by
  have hadvance : ∀ P s env s', (Renderer.render P s env).1 = some s' →
      s'.partition = (s.partition + 1) % P := by
    intro P s env s' h
    simp only [Renderer.render] at h
    cases hs : Renderer.syncWithGPUIfNecessary (s.fences s.partition) env.gpuSignalsInTime with
    | none => rw [hs] at h; simp at h
    | some f' =>
        rw [hs] at h
        by_cases harm : env.fenceArmSucceeds <;>
          simp [harm, Sync.initialiseFence] at h
        rw [← h]
  refine ⟨hadvance, ?_, ?_, ?_, rfl⟩
  · intro P s env s' hP h
    rw [hadvance P s env s' h]
    exact Nat.mod_lt _ hP
  · intro s
    rfl
  · intro s scene internalRes displayRes env
    simp only [Renderer.initialise]
    repeat' split
    all_goals rfl

/-- C4 witness: from the fresh renderer a successful frame advances the
partition from `0` to `1 % 3 = 1`. -/
theorem partition_advance_invariant_witness :
    ((Renderer.render 3 Renderer.initialState ⟨true, true⟩).1 =
      some ((Renderer.render 3 Renderer.initialState ⟨true, true⟩).1.getD
        Renderer.initialState)) ∧
    ((Renderer.render 3 Renderer.initialState ⟨true, true⟩).1.getD
        Renderer.initialState).partition = (Renderer.initialState.partition + 1) % 3 :=
  ⟨rfl,
   partition_advance_invariant.1 3 Renderer.initialState ⟨true, true⟩
     ((Renderer.render 3 Renderer.initialState ⟨true, true⟩).1.getD Renderer.initialState)
     rfl⟩

/-- The builder outcome where program building succeeds and material
loading fails, leaving `Renderer::initialise` to abort at its second
step. -/
def failAtMaterials : BuildOutcomes :=
  { programs := true, materials := false, dynamicObjectBuffers := true,
    lightBuffers := true, geometry := true, framebuffers := true, uniforms := true }

/-- C8 (failing-input evaluation): when `buildMaterials` fails after
`buildPrograms` succeeded, `Renderer::initialise` does return `false` and
does skip the remaining steps, but it performs no cleanup: the scene
pointer and the built programs remain set, unlike the
uninitialised-equivalent state (the fresh state, or any state after
`Renderer::clean`, where `programs` is `false` and `scene` is dropped) —
contradicting the `Renderer.hpp` documentation that the object cleans
itself to an uninitialised state upon failure. -/
theorem initialise_failure_leaves_partial_state :
    (Renderer.initialise Renderer.initialState 1 (1280, 720) (1280, 720) failAtMaterials).1 =
      false ∧
    (Renderer.initialise Renderer.initialState 1 (1280, 720) (1280, 720)
      failAtMaterials).2.programs = true ∧
    (Renderer.initialise Renderer.initialState 1 (1280, 720) (1280, 720)
      failAtMaterials).2.scene = some 1 ∧
    (Renderer.initialise Renderer.initialState 1 (1280, 720) (1280, 720)
      failAtMaterials).2.materials = false ∧
    (Renderer.initialise Renderer.initialState 1 (1280, 720) (1280, 720)
      failAtMaterials).2.geometry = false ∧
    (Renderer.initialise Renderer.initialState 1 (1280, 720) (1280, 720)
      failAtMaterials).2.uniforms = false ∧
    Renderer.initialState.programs = false ∧
    Renderer.initialState.scene = none ∧
    (Renderer.clean (Renderer.initialise Renderer.initialState 1 (1280, 720) (1280, 720)
      failAtMaterials).2).programs = false :=
  ⟨rfl, rfl, rfl, rfl, rfl, rfl, rfl, rfl, rfl⟩

/-- Indices below the starting instance index are untouched by the
instance loop. -/
theorem forEachInstanceWrite_lt (func : Nat → Nat) (l : List Nat) :
    ∀ index buffer k, k < index → forEachInstanceWrite func l index buffer k = buffer k := by
  induction l with
  | nil => intro _ _ _ _; rfl
  | cons a t ih =>
      intro index buffer k hk
      simp only [forEachInstanceWrite]
      rw [ih (index + 1) _ k (Nat.lt_succ_of_lt hk)]
      simp [writeAt, Nat.ne_of_lt hk]

/-- The instance loop stores the value of the `j`-th visited instance at
index `index + j`. -/
theorem forEachInstanceWrite_get (func : Nat → Nat) (l : List Nat) :
    ∀ index buffer j (h : j < l.length),
      forEachInstanceWrite func l index buffer (index + j) = func (l.get ⟨j, h⟩) := by
  induction l with
  | nil => intro _ _ j h; exact absurd h (by simp)
  | cons a t ih =>
      intro index buffer j h
      cases j with
      | zero =>
          simp only [forEachInstanceWrite]
          rw [forEachInstanceWrite_lt func t (index + 1) _ (index + 0) (by omega)]
          simp [writeAt]
      | succ j' =>
          have h' : j' < t.length := by simpa using h
          show forEachInstanceWrite func t (index + 1) (writeAt buffer index (func a))
              (index + (j' + 1)) = func (t.get ⟨j', h'⟩)
          have hidx : index + (j' + 1) = (index + 1) + j' := by omega
          rw [hidx]
          exact ih (index + 1) (writeAt buffer index (func a)) j' h'

/-- Indices below the starting instance index are untouched by the
whole per-mesh pass. -/
theorem forEachMeshInstanceWrite_lt (func : Nat → Nat) (dynamics : List MeshInstances) :
    ∀ index buffer k, k < index →
      forEachMeshInstanceWrite func dynamics index buffer k = buffer k := by
  induction dynamics with
  | nil => intro _ _ _ _; rfl
  | cons mi rest ih =>
      intro index buffer k hk
      simp only [forEachMeshInstanceWrite]
      rw [ih _ _ k (by omega)]
      exact forEachInstanceWrite_lt func mi.instances index buffer k hk

/-- `sumInstancesBefore` at position `0`. -/
theorem sumInstancesBefore_zero (dynamics : List MeshInstances) :
    sumInstancesBefore dynamics 0 = 0 := rfl

/-- `sumInstancesBefore` of a cons at a successor position. -/
theorem sumInstancesBefore_cons_succ (mi : MeshInstances) (rest : List MeshInstances)
    (i : Nat) :
    sumInstancesBefore (mi :: rest) (i + 1) =
      mi.instances.length + sumInstancesBefore rest i := by
  simp [sumInstancesBefore]

/-- The per-mesh pass stores the value of instance `j` of mesh `i` at the
global index `index + sumInstancesBefore dynamics i + j`. -/
theorem forEachMeshInstanceWrite_get (func : Nat → Nat) (dynamics : List MeshInstances) :
    ∀ index buffer i (hi : i < dynamics.length) j
      (hj : j < (dynamics.get ⟨i, hi⟩).instances.length),
      forEachMeshInstanceWrite func dynamics index buffer
          (index + sumInstancesBefore dynamics i + j) =
        func ((dynamics.get ⟨i, hi⟩).instances.get ⟨j, hj⟩) := by
  induction dynamics with
  | nil => intro _ _ i hi _ _; exact absurd hi (by simp)
  | cons mi rest ih =>
      intro index buffer i hi j hj
      cases i with
      | zero =>
          have hj' : j < mi.instances.length := hj
          simp only [forEachMeshInstanceWrite]
          rw [sumInstancesBefore_zero]
          have hidx : index + 0 + j = index + j := by omega
          rw [hidx]
          rw [forEachMeshInstanceWrite_lt func rest _ _ _ (by omega)]
          exact forEachInstanceWrite_get func mi.instances index buffer j hj'
      | succ i' =>
          have hi' : i' < rest.length := by simpa using hi
          show forEachMeshInstanceWrite func rest (index + mi.instances.length)
              (forEachInstanceWrite func mi.instances index buffer)
              (index + sumInstancesBefore (mi :: rest) (i' + 1) + j) =
            func ((rest.get ⟨i', hi'⟩).instances.get ⟨j, hj⟩)
          rw [sumInstancesBefore_cons_succ]
          have hidx : index + (mi.instances.length + sumInstancesBefore rest i') + j =
              (index + mi.instances.length) + sumInstancesBefore rest i' + j := by omega
          rw [hidx]
          exact ih (index + mi.instances.length) _ i' hi' j hj

/-- Mesh indices below the starting mesh index are untouched by the draw
command pass. -/
theorem forEachMeshDrawCommand_lt (dynamics : List MeshInstances) :
    ∀ meshIndex baseInstance buffer k, k < meshIndex →
      forEachMeshDrawCommand dynamics meshIndex baseInstance buffer k = buffer k := by
  induction dynamics with
  | nil => intro _ _ _ _ _; rfl
  | cons mi rest ih =>
      intro meshIndex baseInstance buffer k hk
      simp only [forEachMeshDrawCommand]
      rw [ih _ _ _ k (by omega)]
      simp [writeAt, Nat.ne_of_lt hk]

/-- The draw command pass stores, for mesh `i`, the command carrying its
mesh data, its instance count, and a base instance equal to the starting
base plus the instance counts of all meshes before it. -/
theorem forEachMeshDrawCommand_get (dynamics : List MeshInstances) :
    ∀ meshIndex baseInstance buffer i (hi : i < dynamics.length),
      forEachMeshDrawCommand dynamics meshIndex baseInstance buffer (meshIndex + i) =
        { elementCount := (dynamics.get ⟨i, hi⟩).mesh.elementCount,
          instanceCount := (dynamics.get ⟨i, hi⟩).instances.length,
          elementsIndex := (dynamics.get ⟨i, hi⟩).mesh.elementsIndex,
          verticesIndex := (dynamics.get ⟨i, hi⟩).mesh.verticesIndex,
          baseInstance := baseInstance + sumInstancesBefore dynamics i } := by
  induction dynamics with
  | nil => intro _ _ _ i hi; exact absurd hi (by simp)
  | cons mi rest ih =>
      intro meshIndex baseInstance buffer i hi
      cases i with
      | zero =>
          simp only [forEachMeshDrawCommand]
          rw [forEachMeshDrawCommand_lt rest _ _ _ (meshIndex + 0) (by omega)]
          simp [writeAt, sumInstancesBefore_zero]
      | succ i' =>
          have hi' : i' < rest.length := by simpa using hi
          show forEachMeshDrawCommand rest (meshIndex + 1) (baseInstance + mi.instances.length)
              (writeAt buffer meshIndex
                { elementCount := mi.mesh.elementCount,
                  instanceCount := mi.instances.length,
                  elementsIndex := mi.mesh.elementsIndex,
                  verticesIndex := mi.mesh.verticesIndex,
                  baseInstance := baseInstance }) (meshIndex + (i' + 1)) =
            { elementCount := (rest.get ⟨i', hi'⟩).mesh.elementCount,
              instanceCount := (rest.get ⟨i', hi'⟩).instances.length,
              elementsIndex := (rest.get ⟨i', hi'⟩).mesh.elementsIndex,
              verticesIndex := (rest.get ⟨i', hi'⟩).mesh.verticesIndex,
              baseInstance := baseInstance + sumInstancesBefore (mi :: rest) (i' + 1) }
          rw [sumInstancesBefore_cons_succ]
          have hidx : meshIndex + (i' + 1) = (meshIndex + 1) + i' := by omega
          have hbase : baseInstance + (mi.instances.length + sumInstancesBefore rest i') =
              (baseInstance + mi.instances.length) + sumInstancesBefore rest i' := by omega
          rw [hidx, hbase]
          exact ih (meshIndex + 1) (baseInstance + mi.instances.length) _ i' hi'

/-- The combined single-pass instance loop never touches the draw-command
buffer. -/
theorem writeInstanceEntries_drawCommands (scene : Nat → SceneInstance) (mats : Nat → Nat)
    (l : List Nat) : ∀ index bufs,
      (writeInstanceEntries scene mats l index bufs).drawCommands = bufs.drawCommands := by
  induction l with
  | nil => intro _ _; rfl
  | cons a t ih => intro index bufs; exact ih (index + 1) _

/-- The transform writes of the combined single-pass instance loop agree
with the dedicated transform pass. -/
theorem writeInstanceEntries_transforms (scene : Nat → SceneInstance) (mats : Nat → Nat)
    (l : List Nat) : ∀ index bufs,
      (writeInstanceEntries scene mats l index bufs).transforms =
        forEachInstanceWrite (fun id => (scene id).transformationMatrix) l index
          bufs.transforms := by
  induction l with
  | nil => intro _ _; rfl
  | cons a t ih =>
      intro index bufs
      simp only [writeInstanceEntries, forEachInstanceWrite]
      exact ih (index + 1) _

/-- The material-id writes of the combined single-pass instance loop
agree with the dedicated material-id pass. -/
theorem writeInstanceEntries_materialIDs (scene : Nat → SceneInstance) (mats : Nat → Nat)
    (l : List Nat) : ∀ index bufs,
      (writeInstanceEntries scene mats l index bufs).materialIDs =
        forEachInstanceWrite (fun id => mats (scene id).materialId) l index
          bufs.materialIDs := by
  induction l with
  | nil => intro _ _; rfl
  | cons a t ih =>
      intro index bufs
      simp only [writeInstanceEntries, forEachInstanceWrite]
      exact ih (index + 1) _

/-- The draw-command buffer produced by the single-threaded pass equals
the one produced by the dedicated draw-command pass. -/
theorem updateDynamicObjectsSingle_drawCommands (scene : Nat → SceneInstance)
    (mats : Nat → Nat) (dynamics : List MeshInstances) :
    ∀ meshIndex instanceIndex baseInstance bufs,
      (updateDynamicObjectsSingle scene mats dynamics meshIndex instanceIndex baseInstance
          bufs).drawCommands =
        forEachMeshDrawCommand dynamics meshIndex baseInstance bufs.drawCommands := by
  induction dynamics with
  | nil => intro _ _ _ _; rfl
  | cons mi rest ih =>
      intro meshIndex instanceIndex baseInstance bufs
      simp only [updateDynamicObjectsSingle, forEachMeshDrawCommand]
      rw [ih]
      rw [writeInstanceEntries_drawCommands]

/-- The transform buffer produced by the single-threaded pass equals the
one produced by the dedicated transform pass. -/
theorem updateDynamicObjectsSingle_transforms (scene : Nat → SceneInstance)
    (mats : Nat → Nat) (dynamics : List MeshInstances) :
    ∀ meshIndex instanceIndex baseInstance bufs,
      (updateDynamicObjectsSingle scene mats dynamics meshIndex instanceIndex baseInstance
          bufs).transforms =
        forEachMeshInstanceWrite (fun id => (scene id).transformationMatrix) dynamics
          instanceIndex bufs.transforms := by
  induction dynamics with
  | nil => intro _ _ _ _; rfl
  | cons mi rest ih =>
      intro meshIndex instanceIndex baseInstance bufs
      simp only [updateDynamicObjectsSingle, forEachMeshInstanceWrite]
      rw [ih]
      rw [writeInstanceEntries_transforms]

/-- The material-id buffer produced by the single-threaded pass equals
the one produced by the dedicated material-id pass. -/
theorem updateDynamicObjectsSingle_materialIDs (scene : Nat → SceneInstance)
    (mats : Nat → Nat) (dynamics : List MeshInstances) :
    ∀ meshIndex instanceIndex baseInstance bufs,
      (updateDynamicObjectsSingle scene mats dynamics meshIndex instanceIndex baseInstance
          bufs).materialIDs =
        forEachMeshInstanceWrite (fun id => mats (scene id).materialId) dynamics
          instanceIndex bufs.materialIDs := by
  induction dynamics with
  | nil => intro _ _ _ _; rfl
  | cons mi rest ih =>
      intro meshIndex instanceIndex baseInstance bufs
      simp only [updateDynamicObjectsSingle, forEachMeshInstanceWrite]
      rw [ih]
      rw [writeInstanceEntries_materialIDs]

/-- C2: for every fixed scene snapshot and partition, the single-threaded
execution policy (`m_multiThreaded = false`, one sequential pass) and the
multi-threaded policy (separate concurrent passes per buffer) of
`updateDynamicObjects` produce identical contents in the draw-command,
transform and material-id buffers. -/
theorem updateDynamicObjects_single_multi_equal (scene : Nat → SceneInstance)
    (mats : Nat → Nat) (dynamics : List MeshInstances) (bufs : DynBuffers) :
    Renderer.updateDynamicObjects false scene mats dynamics bufs =
      Renderer.updateDynamicObjects true scene mats dynamics bufs := by
  simp only [Renderer.updateDynamicObjects, Bool.false_eq_true, if_false, if_true]
  ext1
  · rw [updateDynamicObjectsSingle_drawCommands]
    rfl
  · rw [updateDynamicObjectsSingle_transforms]
    rfl
  · rw [updateDynamicObjectsSingle_materialIDs]
    rfl

/-- One step of the accumulated base instance: the base of mesh `i + 1`
is the base of mesh `i` plus mesh `i`'s instance count. -/
theorem sumInstancesBefore_succ_get (dynamics : List MeshInstances) :
    ∀ i (hi : i < dynamics.length),
      sumInstancesBefore dynamics (i + 1) =
        sumInstancesBefore dynamics i + (dynamics.get ⟨i, hi⟩).instances.length := by
  induction dynamics with
  | nil => intro i hi; exact absurd hi (by simp)
  | cons mi rest ih =>
      intro i hi
      cases i with
      | zero =>
          rw [sumInstancesBefore_cons_succ]
          simp [sumInstancesBefore_zero]
      | succ i' =>
          have hi' : i' < rest.length := by simpa using hi
          rw [sumInstancesBefore_cons_succ, sumInstancesBefore_cons_succ, ih i' hi']
          have hget : (mi :: rest).get ⟨i' + 1, hi⟩ = rest.get ⟨i', hi'⟩ := rfl
          rw [hget]
          omega

/-- The accumulated base instance past the final mesh is the total
dynamic instance count. -/
theorem sumInstancesBefore_length (dynamics : List MeshInstances) :
    sumInstancesBefore dynamics dynamics.length = totalDynamicInstances dynamics := by
  unfold sumInstancesBefore totalDynamicInstances
  rw [List.take_of_length_le (by simp)]

/-- The accumulated base instance is monotone in the mesh position. -/
theorem sumInstancesBefore_mono (dynamics : List MeshInstances) :
    ∀ a b, a ≤ b → sumInstancesBefore dynamics a ≤ sumInstancesBefore dynamics b := by
  induction dynamics with
  | nil =>
      intro a b _
      unfold sumInstancesBefore
      simp
  | cons mi rest ih =>
      intro a b hab
      cases a with
      | zero =>
          rw [sumInstancesBefore_zero]
          exact Nat.zero_le _
      | succ a' =>
          cases b with
          | zero => omega
          | succ b' =>
              rw [sumInstancesBefore_cons_succ, sumInstancesBefore_cons_succ]
              exact Nat.add_le_add_left (ih a' b' (by omega)) _

/-- Every global instance index below the total falls inside the range
of exactly some mesh: existence part of the partition property. -/
theorem sumInstancesBefore_coverage (dynamics : List MeshInstances) :
    ∀ k, k < totalDynamicInstances dynamics →
      ∃ i, ∃ hi : i < dynamics.length,
        sumInstancesBefore dynamics i ≤ k ∧
        k < sumInstancesBefore dynamics i + (dynamics.get ⟨i, hi⟩).instances.length := by
  induction dynamics with
  | nil =>
      intro k hk
      exact absurd hk (by simp [totalDynamicInstances])
  | cons mi rest ih =>
      intro k hk
      by_cases hx : k < mi.instances.length
      · refine ⟨0, by simp, ?_, ?_⟩
        · rw [sumInstancesBefore_zero]
          exact Nat.zero_le k
        · rw [sumInstancesBefore_zero]
          simpa using hx
      · have hx' : mi.instances.length ≤ k := by omega
        have hk' : k - mi.instances.length < totalDynamicInstances rest := by
          have htot : totalDynamicInstances (mi :: rest) =
              mi.instances.length + totalDynamicInstances rest := by
            simp [totalDynamicInstances]
          omega
        obtain ⟨i, hi, h1, h2⟩ := ih (k - mi.instances.length) hk'
        refine ⟨i + 1, by simpa using Nat.succ_lt_succ hi, ?_, ?_⟩
        · rw [sumInstancesBefore_cons_succ]
          omega
        · rw [sumInstancesBefore_cons_succ]
          have hget : (mi :: rest).get ⟨i + 1, by simpa using Nat.succ_lt_succ hi⟩ =
              rest.get ⟨i, hi⟩ := rfl
          rw [hget]
          omega

/-- C3: `updateDynamicObjects` (in either threading mode) emits one draw
command per dynamic mesh whose `baseInstance` is the sum of the instance
counts of the meshes before it in the fixed `m_dynamics` order; the
per-mesh ranges `[baseInstance, baseInstance + instanceCount)` are
contiguous, pairwise non-overlapping and cover exactly
`[0, totalDynamicInstances)`; and each instance's transform and
material-id entries are written at `baseInstance + j` with
`j < instanceCount`, an index inside its mesh's range. -/
theorem updateDynamicObjects_draw_partition (mt : Bool) (scene : Nat → SceneInstance)
    (mats : Nat → Nat) (dynamics : List MeshInstances) (bufs : DynBuffers) :
    (∀ i (hi : i < dynamics.length),
      (Renderer.updateDynamicObjects mt scene mats dynamics bufs).drawCommands i =
        { elementCount := (dynamics.get ⟨i, hi⟩).mesh.elementCount,
          instanceCount := (dynamics.get ⟨i, hi⟩).instances.length,
          elementsIndex := (dynamics.get ⟨i, hi⟩).mesh.elementsIndex,
          verticesIndex := (dynamics.get ⟨i, hi⟩).mesh.verticesIndex,
          baseInstance := sumInstancesBefore dynamics i }) ∧
    (∀ i (hi : i < dynamics.length),
      sumInstancesBefore dynamics (i + 1) =
        sumInstancesBefore dynamics i + (dynamics.get ⟨i, hi⟩).instances.length) ∧
    sumInstancesBefore dynamics dynamics.length = totalDynamicInstances dynamics ∧
    (∀ i1 i2 (hi1 : i1 < dynamics.length), i1 < i2 →
      sumInstancesBefore dynamics i1 + (dynamics.get ⟨i1, hi1⟩).instances.length ≤
        sumInstancesBefore dynamics i2) ∧
    (∀ k, k < totalDynamicInstances dynamics →
      ∃ i, ∃ hi : i < dynamics.length,
        sumInstancesBefore dynamics i ≤ k ∧
        k < sumInstancesBefore dynamics i + (dynamics.get ⟨i, hi⟩).instances.length) ∧
    (∀ i (hi : i < dynamics.length) j (hj : j < (dynamics.get ⟨i, hi⟩).instances.length),
      (Renderer.updateDynamicObjects mt scene mats dynamics bufs).transforms
          (sumInstancesBefore dynamics i + j) =
        (scene ((dynamics.get ⟨i, hi⟩).instances.get ⟨j, hj⟩)).transformationMatrix ∧
      (Renderer.updateDynamicObjects mt scene mats dynamics bufs).materialIDs
          (sumInstancesBefore dynamics i + j) =
        mats (scene ((dynamics.get ⟨i, hi⟩).instances.get ⟨j, hj⟩)).materialId) := by
  have hdc : (Renderer.updateDynamicObjects mt scene mats dynamics bufs).drawCommands =
      forEachMeshDrawCommand dynamics 0 0 bufs.drawCommands := by
    cases mt with
    | false =>
        simp only [Renderer.updateDynamicObjects, Bool.false_eq_true, if_false]
        exact updateDynamicObjectsSingle_drawCommands scene mats dynamics 0 0 0 bufs
    | true => rfl
  have htr : (Renderer.updateDynamicObjects mt scene mats dynamics bufs).transforms =
      forEachMeshInstanceWrite (fun id => (scene id).transformationMatrix) dynamics 0
        bufs.transforms := by
    cases mt with
    | false =>
        simp only [Renderer.updateDynamicObjects, Bool.false_eq_true, if_false]
        exact updateDynamicObjectsSingle_transforms scene mats dynamics 0 0 0 bufs
    | true => rfl
  have hmat : (Renderer.updateDynamicObjects mt scene mats dynamics bufs).materialIDs =
      forEachMeshInstanceWrite (fun id => mats (scene id).materialId) dynamics 0
        bufs.materialIDs := by
    cases mt with
    | false =>
        simp only [Renderer.updateDynamicObjects, Bool.false_eq_true, if_false]
        exact updateDynamicObjectsSingle_materialIDs scene mats dynamics 0 0 0 bufs
    | true => rfl
  refine ⟨?_, sumInstancesBefore_succ_get dynamics, sumInstancesBefore_length dynamics,
    ?_, sumInstancesBefore_coverage dynamics, ?_⟩
  · intro i hi
    rw [hdc]
    have h := forEachMeshDrawCommand_get dynamics 0 0 bufs.drawCommands i hi
    simpa using h
  · intro i1 i2 hi1 h12
    rw [← sumInstancesBefore_succ_get dynamics i1 hi1]
    exact sumInstancesBefore_mono dynamics (i1 + 1) i2 h12
  · intro i hi j hj
    constructor
    · rw [htr]
      have h := forEachMeshInstanceWrite_get (fun id => (scene id).transformationMatrix)
        dynamics 0 bufs.transforms i hi j hj
      simpa using h
    · rw [hmat]
      have h := forEachMeshInstanceWrite_get (fun id => mats (scene id).materialId)
        dynamics 0 bufs.materialIDs i hi j hj
      simpa using h

/-- A concrete scene lookup used by the C3 witness. -/
def sceneTwoMeshes : Nat → SceneInstance :=
  fun id => { transformationMatrix := id * 7, materialId := id }

/-- A concrete materials table used by the C3 witness. -/
def matsTable : Nat → Nat := fun id => id + 50

/-- Two dynamic meshes with two and one instances, used by the C3
witness. -/
def dynTwoMeshes : List MeshInstances :=
  [{ mesh := { elementCount := 36, elementsIndex := 0, verticesIndex := 0 },
     instances := [10, 11] },
   { mesh := { elementCount := 9, elementsIndex := 4, verticesIndex := 2 },
     instances := [12] }]

/-- Zero-filled destination buffers used by the C3 witness. -/
def dynBuffersZero : DynBuffers :=
  { drawCommands := fun _ =>
      { elementCount := 0, instanceCount := 0, elementsIndex := 0,
        verticesIndex := 0, baseInstance := 0 },
    transforms := fun _ => 0,
    materialIDs := fun _ => 0 }

/-- C3 witness: with two meshes of two and one instances, the second
mesh's draw command carries `baseInstance = 2`, the count of the
instances before it. -/
theorem updateDynamicObjects_draw_partition_witness :
    1 < dynTwoMeshes.length ∧
    (Renderer.updateDynamicObjects false sceneTwoMeshes matsTable dynTwoMeshes
        dynBuffersZero).drawCommands 1 =
      { elementCount := 9, instanceCount := 1, elementsIndex := 4, verticesIndex := 2,
        baseInstance := 2 } :=
  ⟨by decide, by
    exact (updateDynamicObjects_draw_partition false sceneTwoMeshes matsTable dynTwoMeshes
      dynBuffersZero).1 1 (by decide)⟩
